import Mathlib

/-!
Verification development for the graphql-for-vscode extension core
(src/extension.ts and the ClientStatusBarItem module).

The embedding models:
* the workspace client registry (the module-level clients map and
  createClientForWorkspaces / createClientForWorkspace / deactivate),
* the server launch argument assembly (serverOptions.run.args),
* the initialization-failure handler and the status-bar click handler,
* the ClientStatusBarItem state machine, rendering and visibility rule,
* the resource bookkeeping of the ClientStatusBarItem constructor/dispose.

Stateful editor callbacks are modelled as pure functions over explicit
state; side effects (probing, map mutation, disposal, UI calls) are
recorded as explicit event traces so that ordering claims can be stated.
-/

namespace GraphqlForVSCode

/-- Per-workspace-folder configuration for the two keys read by
serverOptions.run.args in createClientForWorkspace. A field is none when
the configuration key is unset (configuration.has(key) is false) and
some v when it is set, with v already stringified the way the template
literal in the source stringifies it. -/
structure GqlConfiguration where
  watchman : Option String
  autoDownloadGQL : Option String
  deriving DecidableEq

/-- A workspace folder as seen by the extension: its identity
(folder.uri.toString()), its display name, whether
findGQLConfigFile.silent finds a .gqlconfig marker at its path (the
probe result for this folder's filesystem state), and its per-folder
configuration. -/
structure WorkspaceFolder where
  uri : String
  name : String
  hasGqlConfig : Bool
  configuration : GqlConfiguration
  deriving DecidableEq

/-- The run.args list of the serverOptions object built in
createClientForWorkspace: for each of the keys watchman and
autoDownloadGQL, in that order, the source emits the flag string when
configuration.has(key) holds and null otherwise, then drops the nulls
with .filter(Boolean). Note the autoDownloadGQL flag is spelled
--auto-download-gql in the source. -/
def serverOptions (configuration : GqlConfiguration) : List String :=
  ([ (match configuration.watchman with
      | some v => some ("--watchman=" ++ v)
      | none => none),
     (match configuration.autoDownloadGQL with
      | some v => some ("--auto-download-gql=" ++ v)
      | none => none) ] : List (Option String)).filterMap id

/-- The spec's launch-argument sentence read literally: one entry
--key=value per explicitly set configuration key, where key is the
configuration key's own name (watchman, autoDownloadGQL), in that fixed
order, unset keys omitted. Kept separate from serverOptions so the two
can be compared. -/
def specLaunchArgs (configuration : GqlConfiguration) : List String :=
  ([ (match configuration.watchman with
      | some v => some ("--watchman=" ++ v)
      | none => none),
     (match configuration.autoDownloadGQL with
      | some v => some ("--autoDownloadGQL=" ++ v)
      | none => none) ] : List (Option String)).filterMap id

/-- The managed client bundle returned by createClientForWorkspace for a
folder that has the marker file: the data the wrapper owns that the
registry claims talk about (root identity, its output channel name
Graphql-folderName, and the launch args). -/
structure Client where
  folderUri : String
  outputChannelName : String
  args : List String
  deriving DecidableEq

/-- createClientForWorkspace: probes the folder for a .gqlconfig marker
(findGQLConfigFile.silent); without it returns null, with it builds the
managed client bundle. -/
def createClientForWorkspace (folder : WorkspaceFolder) : Option Client :=
  if folder.hasGqlConfig then
    some { folderUri := folder.uri
         , outputChannelName := "Graphql-" ++ folder.name
         , args := serverOptions folder.configuration }
  else none

/-- The module-level clients map, Map of folder uri to Client-or-null,
modelled as an association list in Map insertion order. -/
abbrev Registry := List (String × Option Client)

/-- Observable side effects of one createClientForWorkspaces run:
probe k is a call of createClientForWorkspace for root k (the
marker-file probe and, when it succeeds, the client construction);
add k c is clients.set(k, c); remove k is clients.delete(k);
dispose k is client.dispose() for the entry at k. -/
inductive RegistryEvent where
  | probe (key : String)
  | add (key : String) (client : Option Client)
  | remove (key : String)
  | dispose (key : String)
  deriving DecidableEq

/-- clients.has(key) on the association-list registry. -/
def registryHas (m : Registry) (key : String) : Bool :=
  m.any (fun e => e.1 == key)

/-- Membership of key in the workspaceFoldersIndex object built by the
first loop of createClientForWorkspaces (the index records the uri of
every current folder). -/
def folderIndex (workspaceFolders : List WorkspaceFolder) (key : String) : Bool :=
  workspaceFolders.any (fun f => f.uri == key)

/-- First loop of createClientForWorkspaces: for each current folder, if
its uri is not yet a key of the clients map, call
createClientForWorkspace and set the result (possibly null); a folder
whose key is present is left untouched. Returns the updated map and the
trace of probes and insertions, in program order. -/
def addMissing : Registry → List WorkspaceFolder → Registry × List RegistryEvent
  | m, [] => (m, [])
  | m, folder :: rest =>
    let key := folder.uri
    if registryHas m key then
      addMissing m rest
    else
      let client := createClientForWorkspace folder
      let r := addMissing (m ++ [(key, client)]) rest
      (r.1, RegistryEvent.probe key :: RegistryEvent.add key client :: r.2)

/-- Second loop of createClientForWorkspaces: iterate the clients map in
insertion order and, for every key absent from workspaceFoldersIndex,
first clients.delete(key) and then, if the entry is non-null,
client.dispose() — exactly the statement order of the source. -/
def removeStale (workspaceFolders : List WorkspaceFolder) :
    Registry → Registry × List RegistryEvent
  | [] => ([], [])
  | (key, client) :: rest =>
    let r := removeStale workspaceFolders rest
    if folderIndex workspaceFolders key then
      ((key, client) :: r.1, r.2)
    else
      (r.1,
        (RegistryEvent.remove key ::
          (match client with
           | some _ => [RegistryEvent.dispose key]
           | none => [])) ++ r.2)

/-- createClientForWorkspaces (the reconcile operation): add clients for
new folders, then remove clients of removed folders. Returns the new
registry and the full event trace. -/
def createClientForWorkspaces (clients : Registry)
    (workspaceFolders : List WorkspaceFolder) : Registry × List RegistryEvent :=
  let a := addMissing clients workspaceFolders
  let b := removeStale workspaceFolders a.1
  (b.1, a.2 ++ b.2)

/-- deactivate: clients.forEach(client => promises.push(client.dispose())).
The source has no null check, so reaching a null entry throws a
TypeError inside forEach and aborts the iteration. The model returns the
folderUri of each client whose dispose was called before the iteration
ended, and whether the iteration threw. -/
def deactivate : Registry → List String × Bool
  | [] => ([], false)
  | (_, none) :: _ => ([], true)
  | (_, some client) :: rest =>
    let r := deactivate rest
    (client.folderUri :: r.1, r.2)

/-- The claim's ordering predicate: in trace tr, a dispose event for key
occurs strictly before a remove event for key (both present). -/
def disposeBeforeRemove (tr : List RegistryEvent) (key : String) : Bool :=
  match tr.findIdx? (fun e => e == RegistryEvent.dispose key),
        tr.findIdx? (fun e => e == RegistryEvent.remove key) with
  | some i, some j => decide (i < j)
  | _, _ => false

/-- The Status enum of ClientStatusBarItem. -/
inductive Status where
  | init
  | ok
  | error
  deriving DecidableEq

/-- The State enum of the vscode-languageclient collaborator, as used by
the state-change listener (newState compared against Running and
Stopped; any other member falls through the if/else-if with no effect). -/
inductive ClientState where
  | Starting
  | Running
  | Stopped
  deriving DecidableEq

/-- Asynchronous events the ClientStatusBarItem constructor subscribes
to: onDidChangeState deliveries (carrying oldState and newState, of
which the handler only reads newState) and the settlement of the
client's onReady promise. -/
inductive ClientEvent where
  | stateChange (oldState newState : ClientState)
  | readyResolved
  | readyRejected
  deriving DecidableEq

/-- The (icon, color, tooltip) triple of the STATUS_BAR_UI table. The
color of the ok entry is the source's literal "while". -/
structure StatusBarUI where
  icon : String
  color : String
  tooltip : String
  deriving DecidableEq

def STATUS_BAR_ITEM_NAME : String := "GQL"

/-- The STATUS_BAR_UI lookup table keyed by Status. -/
def STATUS_BAR_UI : Status → StatusBarUI
  | Status.init =>
    { icon := "sync", color := "white"
    , tooltip := "Graphql language server is initializing." }
  | Status.ok =>
    { icon := "plug", color := "while"
    , tooltip := "Graphql language server is running." }
  | Status.error =>
    { icon := "stop", color := "red"
    , tooltip := "Graphql language server is not running." }

/-- The mutable fields of the underlying vscode StatusBarItem that
_setStatus writes. -/
structure StatusBarItemState where
  text : String
  tooltip : String
  color : String
  deriving DecidableEq

/-- _setStatus: renders a Status onto the StatusBarItem; a pure function
of the status. -/
def setStatus (status : Status) : StatusBarItemState :=
  { text := "$(" ++ (STATUS_BAR_UI status).icon ++ ") " ++ STATUS_BAR_ITEM_NAME
  , tooltip := (STATUS_BAR_UI status).tooltip
  , color := (STATUS_BAR_UI status).color }

/-- One delivery to the listeners registered by
_registerStatusChangeListeners: newState Running sets ok, newState
Stopped sets error, any other state change leaves the status unchanged;
onReady resolution sets ok, rejection sets error. -/
def clientEventStep (status : Status) : ClientEvent → Status
  | ClientEvent.stateChange _ ClientState.Running => Status.ok
  | ClientEvent.stateChange _ ClientState.Stopped => Status.error
  | ClientEvent.stateChange _ _ => status
  | ClientEvent.readyResolved => Status.ok
  | ClientEvent.readyRejected => Status.error

/-- The status at the end of the ClientStatusBarItem constructor: the
constructor calls _setStatus(Status.init) synchronously, before
registering the asynchronous listeners. -/
def constructedStatus : Status := Status.init

/-- The status after construction followed by a sequence of
asynchronous client events. -/
def runClientEvents (events : List ClientEvent) : Status :=
  events.foldl clientEventStep constructedStatus

/-- A text document as read by _updateVisibility: its path (matched
against the glob), its uri scheme, and the uri of the workspace folder
that workspace.getWorkspaceFolder resolves it to (none when the document
is outside every workspace folder). -/
structure TextDocument where
  path : String
  scheme : String
  workspaceFolderUri : Option String
  deriving DecidableEq

/-- The fields of the LanguageClient collaborator that the
ClientStatusBarItem reads: initializeResult.fileExtensions once the
server has initialized (none before), the workspace folder the client
was created for (clientOptions.workspaceFolder.uri.toString()), and its
output channel name. -/
structure LanguageClientModel where
  initializeResult : Option (List String)
  workspaceFolderUri : String
  outputChannelName : String
  deriving DecidableEq

/-- The glob pattern string the source builds from the advertised
extension list. -/
def globPattern (extensions : List String) : String :=
  "**/*.\x7b" ++ String.intercalate "," extensions ++ "\x7d"

/-- Character-list suffix test used by the glob model (executable
equivalent of a string ends-with check). -/
def strEndsWith (s suffix : String) : Bool :=
  List.isSuffixOf suffix.data s.data

/-- Model of the editor collaborator languages.match applied to the
selector with scheme file and the glob built by globPattern: a positive
score exactly when the document has the file scheme and its path ends in
a dot followed by one of the advertised extensions, otherwise 0. -/
def languagesMatch (extensions : List String) (document : TextDocument) : Nat :=
  if document.scheme == "file"
      && extensions.any (fun ext => strEndsWith document.path ("." ++ ext))
  then 10 else 0

/-- _getWorkspace: the uri of this indicator's root. -/
def getWorkspace (client : LanguageClientModel) : String :=
  client.workspaceFolderUri

/-- _checkDocumentInsideWorkspace: the document's owning folder exists
and equals this indicator's root. -/
def checkDocumentInsideWorkspace (client : LanguageClientModel)
    (document : TextDocument) : Bool :=
  match document.workspaceFolderUri with
  | some folderUri => folderUri == getWorkspace client
  | none => false

/-- _updateVisibility: the resulting visibility of the status bar item
(true when _show is called, false when _hide is called) for a given
active text editor (none when no editor is focused). -/
def updateVisibility (client : LanguageClientModel)
    (textEditor : Option TextDocument) : Bool :=
  let hide :=
    match textEditor with
    | some document =>
      if checkDocumentInsideWorkspace client document then
        match client.initializeResult with
        | some extensions => languagesMatch extensions document == 0
        | none => false
      else true
    | none => true
  !hide

/-- Observable actions of the per-client handlers: a client.error log
line written to the root's output channel, and an outputChannel.show
call with its preserveFocus argument. -/
inductive HandlerAction where
  | logError (message : String)
  | showOutputChannel (preserveFocus : Bool)
  deriving DecidableEq

/-- initializationFailedHandler of createClientForWorkspace: logs the
error to the client's output channel, calls outputChannel.show(true),
and returns false so the client library does not retry. The returned
pair is (actions performed, retry flag returned). -/
def initializationFailedHandler (errorMessage : String) :
    List HandlerAction × Bool :=
  ([ HandlerAction.logError ("Server initialization failed: " ++ errorMessage),
     HandlerAction.showOutputChannel true ], false)

/-- _addOnClickToShowOutputChannel: registers the command named
showOutputChannel-channelName whose body calls outputChannel.show()
(no argument, so focus is not preserved) and binds it to the item.
Returns (registered command name, actions the command performs when the
user clicks the item). -/
def addOnClickToShowOutputChannel (outputChannelName : String) :
    String × List HandlerAction :=
  ("showOutputChannel-" ++ outputChannelName,
   [HandlerAction.showOutputChannel false])

/-- The resources a ClientStatusBarItem touches: the StatusBarItem UI
primitive, the registered click command, and the three subscriptions
made in the constructor (the onDidChangeState listener, the onReady
continuation, the window.onDidChangeActiveTextEditor listener). -/
inductive IndicatorResource where
  | statusBarItem
  | clickCommand
  | stateChangeListener
  | readyListener
  | activeEditorListener
  deriving DecidableEq

/-- Resource bookkeeping of one ClientStatusBarItem: which disposables
were pushed onto this._disposables, and which event subscriptions the
constructor created. -/
structure ClientStatusBarItem where
  disposables : List IndicatorResource
  registeredListeners : List IndicatorResource
  deriving DecidableEq

/-- The constructor: pushes the StatusBarItem and the click-command
disposable onto _disposables; subscribes to onDidChangeState, onReady
and onDidChangeActiveTextEditor, discarding the subscription handles
returned by onDidChangeState and onDidChangeActiveTextEditor. -/
def constructClientStatusBarItem : ClientStatusBarItem :=
  { disposables := [IndicatorResource.statusBarItem, IndicatorResource.clickCommand]
  , registeredListeners :=
      [IndicatorResource.stateChangeListener, IndicatorResource.readyListener,
       IndicatorResource.activeEditorListener] }

/-- dispose: calls dispose on every member of _disposables (then nulls
_item and _client). Returns the resources actually released. -/
def disposeReleases (item : ClientStatusBarItem) : List IndicatorResource :=
  item.disposables

/-- The subscriptions created by the constructor that dispose does not
release. -/
def listenersSurvivingDispose (item : ClientStatusBarItem) : List IndicatorResource :=
  item.registeredListeners.filter (fun r => ! item.disposables.contains r)

/-! ## Registry lemmas -/

theorem registryHas_append (m₁ m₂ : Registry) (k : String) :
    registryHas (m₁ ++ m₂) k = (registryHas m₁ k || registryHas m₂ k) := by
  simp [registryHas, List.any_append]

theorem registryHas_of_mem {m : Registry} {e : String × Option Client}
    (h : e ∈ m) : registryHas m e.1 = true := by
  simp only [registryHas, List.any_eq_true]
  exact ⟨e, h, by simp⟩

theorem folderIndex_of_mem {workspaceFolders : List WorkspaceFolder}
    {f : WorkspaceFolder} (h : f ∈ workspaceFolders) :
    folderIndex workspaceFolders f.uri = true := by
  simp only [folderIndex, List.any_eq_true]
  exact ⟨f, h, by simp⟩

theorem folderIndex_cons (f : WorkspaceFolder) (rest : List WorkspaceFolder)
    (k : String) :
    folderIndex (f :: rest) k = ((f.uri == k) || folderIndex rest k) := by
  simp [folderIndex]

theorem registryHas_addMissing (workspaceFolders : List WorkspaceFolder) :
    ∀ (m : Registry) (k : String),
      registryHas (addMissing m workspaceFolders).1 k
        = (registryHas m k || folderIndex workspaceFolders k) := by
  induction workspaceFolders with
  | nil => intro m k; simp [addMissing, folderIndex]
  | cons folder rest ih =>
    intro m k
    rw [folderIndex_cons]
    by_cases h : registryHas m folder.uri = true
    · have hstep : (addMissing m (folder :: rest)).1 = (addMissing m rest).1 := by
        simp [addMissing, h]
      rw [hstep, ih]
      by_cases hk : (folder.uri == k) = true
      · have hek : folder.uri = k := eq_of_beq hk
        rw [hek] at h
        simp [h, hk]
      · have hk2 : (folder.uri == k) = false := by simpa using hk
        rw [hk2, Bool.false_or]
    · have h2 : registryHas m folder.uri = false := by simpa using h
      have hstep : (addMissing m (folder :: rest)).1
          = (addMissing (m ++ [(folder.uri, createClientForWorkspace folder)])
              rest).1 := by
        simp [addMissing, h2]
      rw [hstep, ih, registryHas_append]
      have hsingle :
          registryHas [(folder.uri, createClientForWorkspace folder)] k
            = (folder.uri == k) := by
        simp [registryHas]
      rw [hsingle, Bool.or_assoc]

theorem registryHas_removeStale (workspaceFolders : List WorkspaceFolder) :
    ∀ (m : Registry) (k : String),
      registryHas (removeStale workspaceFolders m).1 k
        = (registryHas m k && folderIndex workspaceFolders k) := by
  intro m
  induction m with
  | nil => intro k; simp [removeStale, registryHas]
  | cons e rest ih =>
    intro k
    obtain ⟨key, client⟩ := e
    have hcons : registryHas ((key, client) :: rest) k
        = ((key == k) || registryHas rest k) := by
      simp [registryHas]
    rw [hcons]
    by_cases h : folderIndex workspaceFolders key = true
    · have hstep : (removeStale workspaceFolders ((key, client) :: rest)).1
          = (key, client) :: (removeStale workspaceFolders rest).1 := by
        simp [removeStale, h]
      rw [hstep]
      have hcons2 : registryHas ((key, client)
            :: (removeStale workspaceFolders rest).1) k
          = ((key == k) || registryHas (removeStale workspaceFolders rest).1 k) := by
        simp [registryHas]
      rw [hcons2, ih]
      by_cases hk : (key == k) = true
      · have hek : key = k := eq_of_beq hk
        rw [hek] at h
        simp [h, hk]
      · have hk2 : (key == k) = false := by simpa using hk
        rw [hk2]
        simp
    · have h2 : folderIndex workspaceFolders key = false := by simpa using h
      have hstep : (removeStale workspaceFolders ((key, client) :: rest)).1
          = (removeStale workspaceFolders rest).1 := by
        simp [removeStale, h2]
      rw [hstep, ih]
      by_cases hk : (key == k) = true
      · have hek : key = k := eq_of_beq hk
        rw [hek] at h2
        simp [h2, hk]
      · have hk2 : (key == k) = false := by simpa using hk
        rw [hk2]
        simp

theorem registryHas_reconcile (clients : Registry)
    (workspaceFolders : List WorkspaceFolder) (k : String) :
    registryHas (createClientForWorkspaces clients workspaceFolders).1 k
      = folderIndex workspaceFolders k := by
  simp only [createClientForWorkspaces, registryHas_removeStale,
    registryHas_addMissing]
  cases folderIndex workspaceFolders k <;> simp

theorem addMissing_no_new (workspaceFolders : List WorkspaceFolder) :
    ∀ m : Registry,
      (∀ f ∈ workspaceFolders, registryHas m f.uri = true) →
      addMissing m workspaceFolders = (m, []) := by
  induction workspaceFolders with
  | nil => intro m _; rfl
  | cons folder rest ih =>
    intro m hall
    have h : registryHas m folder.uri = true :=
      hall folder (List.mem_cons_self folder rest)
    have h2 := ih m (fun f hf => hall f (List.mem_cons_of_mem folder hf))
    simp [addMissing, h, h2]

theorem removeStale_no_remove (workspaceFolders : List WorkspaceFolder) :
    ∀ m : Registry,
      (∀ e ∈ m, folderIndex workspaceFolders e.1 = true) →
      removeStale workspaceFolders m = (m, []) := by
  intro m
  induction m with
  | nil => intro _; rfl
  | cons e rest ih =>
    intro hall
    obtain ⟨key, client⟩ := e
    have h : folderIndex workspaceFolders key = true :=
      hall (key, client) (List.mem_cons_self _ rest)
    have h2 := ih (fun e he => hall e (List.mem_cons_of_mem _ he))
    simp [removeStale, h, h2]

theorem addMissing_fst_eq_append (workspaceFolders : List WorkspaceFolder) :
    ∀ m : Registry, ∃ t, (addMissing m workspaceFolders).1 = m ++ t := by
  induction workspaceFolders with
  | nil => intro m; exact ⟨[], by simp [addMissing]⟩
  | cons folder rest ih =>
    intro m
    by_cases h : registryHas m folder.uri = true
    · obtain ⟨t, ht⟩ := ih m
      exact ⟨t, by simp [addMissing, h, ht]⟩
    · obtain ⟨t, ht⟩ :=
        ih (m ++ [(folder.uri, createClientForWorkspace folder)])
      refine ⟨(folder.uri, createClientForWorkspace folder) :: t, ?_⟩
      simp [addMissing, h, ht]

theorem removeStale_removed_trace (workspaceFolders : List WorkspaceFolder) :
    ∀ (m : Registry) (k : String) (c : Client),
      (k, some c) ∈ m → folderIndex workspaceFolders k = false →
      ∃ s t, (removeStale workspaceFolders m).2
        = s ++ [RegistryEvent.remove k, RegistryEvent.dispose k] ++ t := by
  intro m
  induction m with
  | nil => intro k c h _; cases h
  | cons e rest ih =>
    intro k c hmem hgone
    rcases List.mem_cons.mp hmem with he | hrest
    · rw [← he]
      refine ⟨[], (removeStale workspaceFolders rest).2, ?_⟩
      simp [removeStale, hgone]
    · obtain ⟨s, t, hst⟩ := ih k c hrest hgone
      obtain ⟨key, client⟩ := e
      by_cases h : folderIndex workspaceFolders key = true
      · exact ⟨s, t, by simp [removeStale, h, hst]⟩
      · have h2 : folderIndex workspaceFolders key = false := by simpa using h
        cases client with
        | none =>
          refine ⟨RegistryEvent.remove key :: s, t, ?_⟩
          simp [removeStale, h2, hst]
        | some cl =>
          refine ⟨RegistryEvent.remove key :: RegistryEvent.dispose key :: s,
            t, ?_⟩
          simp [removeStale, h2, hst]

/-! ## Concrete values used by witnesses and counterexamples -/

/-- A concrete managed client for the root file:///a. -/
def clientA : Client :=
  { folderUri := "file:///a", outputChannelName := "Graphql-a", args := [] }

/-- A concrete managed client for the root file:///c. -/
def clientC : Client :=
  { folderUri := "file:///c", outputChannelName := "Graphql-c", args := [] }

/-! ## Claim theorems -/

/-- C1: for every registry state and every current root set, after a
reconcile call (createClientForWorkspaces) a key is present in the
registry exactly when it is the identity of a current workspace folder:
every current root has an entry (possibly null) and no entry remains for
a removed root. -/
theorem C1_registry_keys_match_roots (clients : Registry)
    (workspaceFolders : List WorkspaceFolder) (k : String) :
    registryHas (createClientForWorkspaces clients workspaceFolders).1 k
      = folderIndex workspaceFolders k :=
  registryHas_reconcile clients workspaceFolders k

/-- C2: reconciliation is idempotent: starting from any registry state,
running createClientForWorkspaces a second time with the same workspace
folder list leaves the registry unchanged and produces an empty event
trace — in particular no marker-file probe, no client construction, no
insertion, no removal and no disposal happen, also when some entries are
null tombstones. -/
theorem C2_reconcile_idempotent (clients : Registry)
    (workspaceFolders : List WorkspaceFolder) :
    createClientForWorkspaces
        (createClientForWorkspaces clients workspaceFolders).1 workspaceFolders
      = ((createClientForWorkspaces clients workspaceFolders).1, []) := by
  set m1 := (createClientForWorkspaces clients workspaceFolders).1 with hm1
  have h1 : ∀ f ∈ workspaceFolders, registryHas m1 f.uri = true := by
    intro f hf
    rw [hm1, registryHas_reconcile]
    exact folderIndex_of_mem hf
  have h2 : ∀ e ∈ m1, folderIndex workspaceFolders e.1 = true := by
    intro e he
    have h3 : registryHas m1 e.1 = true := registryHas_of_mem he
    rw [hm1, registryHas_reconcile] at h3
    exact h3
  have ha := addMissing_no_new workspaceFolders m1 h1
  have hb := removeStale_no_remove workspaceFolders m1 h2
  simp [createClientForWorkspaces, ha, hb]

/-- C3 counterexample: with the registry holding a single non-null
client for root file:///a and the root set now empty, the reconcile
trace is clients.delete followed by client.dispose, so the dispose event
does not precede the remove event — disposal does not precede removal
from the mapping. -/
theorem C3_counterexample :
    disposeBeforeRemove
        (createClientForWorkspaces [("file:///a", some clientA)] []).2
        "file:///a" = false
    ∧ (createClientForWorkspaces [("file:///a", some clientA)] []).2
        = [RegistryEvent.remove "file:///a", RegistryEvent.dispose "file:///a"] := by
  exact ⟨rfl, rfl⟩

/-- C3 amended: for every root removed from the current root set whose
registry entry is a non-null client, the reconcile trace contains the
key removal immediately followed by the disposal of that client —
removal precedes disposal, and every removed non-null client is
disposed within the same reconcile call. -/
theorem C3_amended_remove_then_dispose (clients : Registry)
    (workspaceFolders : List WorkspaceFolder) (k : String) (c : Client)
    (hmem : (k, some c) ∈ clients)
    (hgone : folderIndex workspaceFolders k = false) :
    ∃ s t, (createClientForWorkspaces clients workspaceFolders).2
      = s ++ [RegistryEvent.remove k, RegistryEvent.dispose k] ++ t := by
  obtain ⟨t0, ht0⟩ := addMissing_fst_eq_append workspaceFolders clients
  have hmem2 : (k, some c) ∈ (addMissing clients workspaceFolders).1 := by
    rw [ht0]
    exact List.mem_append_left _ hmem
  obtain ⟨s, t, hst⟩ :=
    removeStale_removed_trace workspaceFolders _ k c hmem2 hgone
  refine ⟨(addMissing clients workspaceFolders).2 ++ s, t, ?_⟩
  simp [createClientForWorkspaces, hst]

/-- Witness for C3 amended at the registry holding clientA for
file:///a and an empty current root set. -/
theorem C3_amended_witness :
    (("file:///a", some clientA) ∈ ([("file:///a", some clientA)] : Registry)
      ∧ folderIndex [] "file:///a" = false)
    ∧ ∃ s t, (createClientForWorkspaces [("file:///a", some clientA)] []).2
        = s ++ [RegistryEvent.remove "file:///a",
                RegistryEvent.dispose "file:///a"] ++ t :=
  ⟨⟨by simp, by decide⟩,
   C3_amended_remove_then_dispose [("file:///a", some clientA)] []
     "file:///a" clientA (by simp) (by decide)⟩

/-- C4: deactivate iterates the clients map calling client.dispose()
with no null check, so a null tombstone entry (a root without the
.gqlconfig marker) makes it throw a TypeError, and clients after the
null entry are never disposed; only a registry with no null entry
disposes everything without error. This contradicts the
Map of String to Client-or-null typing and the null guard used by the
removal path of createClientForWorkspaces. -/
theorem C4_deactivate_throws_on_null :
    deactivate [("file:///a", none)] = ([], true)
    ∧ deactivate [("file:///a", some clientA), ("file:///b", none),
        ("file:///c", some clientC)] = (["file:///a"], true)
    ∧ deactivate [("file:///a", some clientA), ("file:///c", some clientC)]
        = (["file:///a", "file:///c"], false) := by
  exact ⟨rfl, rfl, rfl⟩

/-- C5: the indicator's status is init (Initializing) synchronously at
the end of construction, and the final status after each event sequence
of the transition table is as specified: state-change to Running yields
ok, state-change to Stopped yields error, onReady resolving yields ok,
onReady rejecting yields error, and Running followed by Stopped yields
error (re-entrant transition out of ok). -/
theorem C5_status_transition_table :
    constructedStatus = Status.init
    ∧ (∀ o, runClientEvents [ClientEvent.stateChange o ClientState.Running]
        = Status.ok)
    ∧ (∀ o, runClientEvents [ClientEvent.stateChange o ClientState.Stopped]
        = Status.error)
    ∧ runClientEvents [ClientEvent.readyResolved] = Status.ok
    ∧ runClientEvents [ClientEvent.readyRejected] = Status.error
    ∧ (∀ o o2, runClientEvents
        [ClientEvent.stateChange o ClientState.Running,
         ClientEvent.stateChange o2 ClientState.Stopped] = Status.error) := by
  refine ⟨rfl, fun o => rfl, fun o => rfl, rfl, rfl, fun o o2 => rfl⟩

/-- C6: for every active-document-change event, the recomputed
visibility is: hidden when no document is focused; hidden when the
focused document's workspace root differs from this indicator's root
(or it has none); visible when the client has no initializeResult yet;
and with an initializeResult carrying a file-extension set, visible
exactly when the focused document matches the glob built from that set
(modelled by languagesMatch). -/
theorem C6_visibility_rule (client : LanguageClientModel)
    (textEditor : Option TextDocument) :
    (textEditor = none → updateVisibility client textEditor = false)
    ∧ (∀ document, textEditor = some document →
        checkDocumentInsideWorkspace client document = false →
        updateVisibility client textEditor = false)
    ∧ (∀ document, textEditor = some document →
        checkDocumentInsideWorkspace client document = true →
        client.initializeResult = none →
        updateVisibility client textEditor = true)
    ∧ (∀ document extensions, textEditor = some document →
        checkDocumentInsideWorkspace client document = true →
        client.initializeResult = some extensions →
        updateVisibility client textEditor
          = !(languagesMatch extensions document == 0)) := by
  refine ⟨?_, ?_, ?_, ?_⟩
  · intro h
    rw [h]
    rfl
  · intro document h hout
    rw [h]
    simp [updateVisibility, hout]
  · intro document h hin hres
    rw [h]
    simp [updateVisibility, hin, hres]
  · intro document extensions h hin hres
    rw [h]
    simp [updateVisibility, hin, hres]

/-- A concrete client whose server advertised the extensions graphql and
gql for the root file:///w. -/
def clientB : LanguageClientModel :=
  { initializeResult := some ["graphql", "gql"]
  , workspaceFolderUri := "file:///w"
  , outputChannelName := "Graphql-w" }

/-- A focused document foo.gql inside the root file:///w. -/
def docGql : TextDocument :=
  { path := "/w/foo.gql", scheme := "file"
  , workspaceFolderUri := some "file:///w" }

/-- Witness for C6 at clientB with the focused document foo.gql inside
the root: the document is inside the workspace, the initializeResult is
present, and the visibility equals the glob-match test (which is
positive here). -/
theorem C6_visibility_rule_witness :
    ((some docGql = some docGql)
      ∧ checkDocumentInsideWorkspace clientB docGql = true
      ∧ clientB.initializeResult = some ["graphql", "gql"])
    ∧ updateVisibility clientB (some docGql)
        = !(languagesMatch ["graphql", "gql"] docGql == 0)
    ∧ languagesMatch ["graphql", "gql"] docGql = 10 :=
  ⟨⟨rfl, by decide, rfl⟩,
   (C6_visibility_rule clientB (some docGql)).2.2.2 docGql ["graphql", "gql"]
     rfl (by decide) rfl,
   by decide⟩

/-- C7 counterexample: the initializationFailedHandler itself performs
an outputChannel.show call (with preserveFocus true), so the output
channel is brought forward automatically by the failure handler and not
only on an explicit user click. -/
theorem C7_counterexample :
    HandlerAction.showOutputChannel true
      ∈ (initializationFailedHandler "connect ECONNREFUSED").1 := by
  simp [initializationFailedHandler]

/-- C7 amended: when initialization fails the handler logs the error to
the root's own output channel, returns false so the client library does
not retry (the client is retained), the rejected onReady promise drives
the indicator to error, and the output channel is brought forward both
by the failure handler itself (with focus preserved) and on an explicit
user click on the indicator (whose registered command shows the
channel). -/
theorem C7_amended_failure_handling (errorMessage channelName : String) :
    HandlerAction.logError ("Server initialization failed: " ++ errorMessage)
        ∈ (initializationFailedHandler errorMessage).1
    ∧ (initializationFailedHandler errorMessage).2 = false
    ∧ runClientEvents [ClientEvent.readyRejected] = Status.error
    ∧ HandlerAction.showOutputChannel true
        ∈ (initializationFailedHandler errorMessage).1
    ∧ (addOnClickToShowOutputChannel channelName).1
        = "showOutputChannel-" ++ channelName
    ∧ (addOnClickToShowOutputChannel channelName).2
        = [HandlerAction.showOutputChannel false] := by
  refine ⟨by simp [initializationFailedHandler], rfl, rfl,
    by simp [initializationFailedHandler], rfl, rfl⟩

/-- C8 counterexample: with watchman unset and autoDownloadGQL set to
true, the produced argument list is [--auto-download-gql=true]; the
entry --autoDownloadGQL=true that the claim's per-configuration-key
--key=value format prescribes (spelled out by specLaunchArgs) is not
produced. -/
theorem C8_counterexample :
    serverOptions { watchman := none, autoDownloadGQL := some "true" }
        = ["--auto-download-gql=true"]
    ∧ specLaunchArgs { watchman := none, autoDownloadGQL := some "true" }
        = ["--autoDownloadGQL=true"]
    ∧ "--autoDownloadGQL=true"
        ∉ serverOptions { watchman := none, autoDownloadGQL := some "true" } := by
  exact ⟨rfl, rfl, by decide⟩

/-- C8 amended: the launch argument list contains, in the fixed order
(watchman, autoDownloadGQL), exactly one entry per explicitly set
configuration key and none for an unset key, where the watchman entry is
--watchman=value and the autoDownloadGQL entry uses the kebab-case flag
--auto-download-gql=value; in particular watchman set to npx watchman
with autoDownloadGQL unset yields exactly [--watchman=npx watchman]. -/
theorem C8_amended_launch_args (w a : String) :
    serverOptions { watchman := some w, autoDownloadGQL := some a }
        = ["--watchman=" ++ w, "--auto-download-gql=" ++ a]
    ∧ serverOptions { watchman := some w, autoDownloadGQL := none }
        = ["--watchman=" ++ w]
    ∧ serverOptions { watchman := none, autoDownloadGQL := some a }
        = ["--auto-download-gql=" ++ a]
    ∧ serverOptions { watchman := none, autoDownloadGQL := none } = []
    ∧ serverOptions { watchman := some "npx watchman", autoDownloadGQL := none }
        = ["--watchman=npx watchman"] := by
  exact ⟨rfl, rfl, rfl, rfl, rfl⟩

/-- C9: the ClientStatusBarItem constructor pushes only the
StatusBarItem UI primitive and the click-command registration onto
_disposables, while it also subscribes to the client state-change event,
the onReady promise and the active-editor-change event; dispose releases
exactly _disposables, so all three subscriptions survive dispose and
their handlers can still run against the nulled _item and _client —
contradicting the claim that after dispose no handler owned by the
indicator can run again. -/
theorem C9_dispose_leaks_listeners :
    disposeReleases constructClientStatusBarItem
        = [IndicatorResource.statusBarItem, IndicatorResource.clickCommand]
    ∧ IndicatorResource.stateChangeListener
        ∈ constructClientStatusBarItem.registeredListeners
    ∧ IndicatorResource.activeEditorListener
        ∈ constructClientStatusBarItem.registeredListeners
    ∧ listenersSurvivingDispose constructClientStatusBarItem
        = [IndicatorResource.stateChangeListener, IndicatorResource.readyListener,
           IndicatorResource.activeEditorListener] := by
  exact ⟨rfl, by decide, by decide, rfl⟩

/-- C10: a state-change event whose new state is neither Running nor
Stopped leaves the indicator's status unchanged, and therefore also the
rendered (icon, tooltip, color) triple written by _setStatus. -/
theorem C10_other_state_change_is_noop (status : Status)
    (oldState newState : ClientState)
    (h1 : newState ≠ ClientState.Running) (h2 : newState ≠ ClientState.Stopped) :
    clientEventStep status (ClientEvent.stateChange oldState newState) = status
    ∧ setStatus (clientEventStep status
        (ClientEvent.stateChange oldState newState)) = setStatus status := by
  cases newState with
  | Starting => exact ⟨rfl, rfl⟩
  | Running => exact absurd rfl h1
  | Stopped => exact absurd rfl h2

/-- Witness for C10 at status init and a state-change whose new state is
Starting. -/
theorem C10_other_state_change_is_noop_witness :
    (ClientState.Starting ≠ ClientState.Running
      ∧ ClientState.Starting ≠ ClientState.Stopped)
    ∧ clientEventStep Status.init
        (ClientEvent.stateChange ClientState.Running ClientState.Starting)
        = Status.init
    ∧ setStatus (clientEventStep Status.init
        (ClientEvent.stateChange ClientState.Running ClientState.Starting))
        = setStatus Status.init :=
  ⟨⟨by decide, by decide⟩,
   C10_other_state_change_is_noop Status.init ClientState.Running
     ClientState.Starting (by decide) (by decide)⟩

end GraphqlForVSCode
